import Mathlib

/-!
Shallow embedding of `src/dictate.py` (SoupaWhisper voice dictation tool).

Python strings are modelled as Lean `String`; the Python builtins used by the
source (`str.split`, `str.strip`, `str.lower`, `str.join`, slicing, `len`) are
given executable structural-recursive models over `String.data` below, so that
concrete instances evaluate by `decide`.  Python `None` becomes `Option.none`,
Python exceptions become `Except` / `Option PyExc`, and the side effects the
orchestrator performs (subprocess spawns, notifications, clipboard writes,
keystroke injection, file deletion) are reified as an `Effect` trace.
-/

namespace SoupaWhisper

/-- Model of the Python builtin `str.split(sep)` for a one-character
separator, on the character list: splitting the empty string yields one empty
field, and every separator occurrence starts a new field. -/
def splitOnChar (sep : Char) : List Char → List (List Char)
  | [] => [[]]
  | c :: rest =>
    let r := splitOnChar sep rest
    if c = sep then [] :: r
    else
      match r with
      | [] => [[c]]
      | g :: gs => (c :: g) :: gs

/-- Model of the Python builtin `str.split(sep)` for a one-character
separator. -/
def pySplit (sep : Char) (s : String) : List String :=
  (splitOnChar sep s.data).map (fun cs => String.mk cs)

/-- Model of the Python builtin `str.strip()`: drop leading and trailing
whitespace. -/
def pyStrip (s : String) : String :=
  ⟨((s.data.dropWhile Char.isWhitespace).reverse.dropWhile Char.isWhitespace).reverse⟩

/-- Model of the Python builtin `str.lower()` (ASCII range, which covers every
string the program feeds it). -/
def pyLower (s : String) : String := ⟨s.data.map Char.toLower⟩

/-- Model of the Python builtin `sep.join(list)`: the first element, then the
remaining elements each preceded by the separator. -/
def pyJoin (sep : String) : List String → String
  | [] => ""
  | s :: rest => rest.foldl (fun acc x => acc ++ sep ++ x) s

/-- Model of the Python slicing `s[:n]` (by code point). -/
def pyTake (s : String) (n : Nat) : String := ⟨s.data.take n⟩

/-- Model of the Python builtin `len(s)` (code points). -/
def pyLen (s : String) : Nat := s.data.length

/-- Model of a Python exception object; only the class name matters to the
control flow we verify. -/
structure PyExc where
  name : String
deriving DecidableEq, Repr

/-- PASTE_KEYCODE_MAP, src/dictate.py lines 195-204: the dict mapping paste-key
names to ydotool keycodes.  Note that the source assigns keycode 31 to both
"b" and "s". -/
def PASTE_KEYCODE_MAP : String → Option Nat
  | "ctrl" => some 29
  | "control" => some 29
  | "alt" => some 56
  | "shift" => some 42
  | "super" => some 125
  | "meta" => some 125
  | "cmd" => some 125
  | "command" => some 125
  | "a" => some 30
  | "b" => some 31
  | "c" => some 46
  | "d" => some 32
  | "e" => some 18
  | "f" => some 33
  | "g" => some 34
  | "h" => some 35
  | "i" => some 23
  | "j" => some 36
  | "k" => some 37
  | "l" => some 38
  | "m" => some 50
  | "n" => some 49
  | "o" => some 24
  | "p" => some 25
  | "q" => some 16
  | "r" => some 19
  | "s" => some 31
  | "t" => some 20
  | "u" => some 22
  | "v" => some 47
  | "w" => some 17
  | "x" => some 45
  | "y" => some 21
  | "z" => some 44
  | _ => none

/-- Tokenisation step of parse_paste_keys (line 208):
`[p.strip().lower() for p in paste_keys_str.split("+")]`. -/
def paste_key_tokens (s : String) : List String :=
  (pySplit '+' s).map (fun p => pyLower (pyStrip p))

/-- Keycode resolution step of parse_paste_keys (lines 209-217): look each
token up in PASTE_KEYCODE_MAP, skipping unknown tokens; if nothing resolved,
fall back to Ctrl+V ([29, 47]). -/
def resolve_keycodes (s : String) : List Nat :=
  let keycodes := (paste_key_tokens s).filterMap PASTE_KEYCODE_MAP
  if keycodes.isEmpty then [29, 47] else keycodes

/-- Argument-building loops of parse_paste_keys (lines 218-224): append
"kc:1" for each keycode in order, then "kc:0" for each keycode in reverse
order. -/
def build_ydotool_args (keycodes : List Nat) : List String :=
  let args := keycodes.foldl (fun acc kc => acc ++ [toString kc ++ ":1"]) []
  keycodes.reverse.foldl (fun acc kc => acc ++ [toString kc ++ ":0"]) args

/-- parse_paste_keys, src/dictate.py lines 206-224. -/
def parse_paste_keys (s : String) : List String :=
  build_ydotool_args (resolve_keycodes s)

/-- PASTE_TERMINAL_ARGS, line 227: the fixed terminal paste sequence. -/
def PASTE_TERMINAL_ARGS : List String := parse_paste_keys "ctrl+shift+v"

/-- TERMINAL_APPS, lines 231-238: window classes that paste with
Ctrl+Shift+V. -/
def TERMINAL_APPS : List String :=
  ["org.kde.konsole", "konsole",
   "alacritty", "org.alacritty.Alacritty",
   "kitty", "org.kde.yakuake",
   "gnome-terminal", "gnome-terminal-server",
   "xfce4-terminal", "terminator", "tilix",
   "foot", "wezterm"]

/-- get_paste_keys_for_window, lines 260-268, parameterised by the
user-configured default sequence (the global PASTE_YDOTOOL_ARGS).  The Python
truthiness test `if window_class:` treats both None and the empty string as
absent. -/
def get_paste_keys_for_window (paste_ydotool_args : List String)
    (window_class : Option String) : List String :=
  match window_class with
  | some wc =>
    if wc ≠ "" ∧ pyLower wc ∈ TERMINAL_APPS.map pyLower then PASTE_TERMINAL_ARGS
    else paste_ydotool_args
  | none => paste_ydotool_args

/-- parse_language_config, lines 176-184: "auto" means full auto-detect, a
single entry is a forced language, several comma-separated entries form an
allowed-language list for restricted auto-detection. -/
def parse_language_config (lang_str : String) : Option String × Option (List String) :=
  let l := pyLower (pyStrip lang_str)
  if l = "auto" then (none, none)
  else
    let parts := (pySplit ',' l).map pyStrip
    match parts with
    | [p] => (some p, none)
    | _ => (none, some parts)

/-- Language resolution inside Dictation.stop_recording, lines 537-549:
`use_language = LANGUAGE; if ALLOWED_LANGUAGES and not LANGUAGE:` run a
detection pass, fall back to the first allowed entry when the detected
language is not allowed.  Python truthiness: a falsy LANGUAGE is None or "",
a falsy ALLOWED_LANGUAGES is None or the empty list. -/
def resolve_use_language (language : Option String)
    (allowed_languages : Option (List String)) (detected : String) : Option String :=
  match allowed_languages with
  | some (a :: rest) =>
    if language = none ∨ language = some "" then
      if detected ∈ a :: rest then some detected else some a
    else language
  | _ => language

/-- Text assembly in Dictation.stop_recording, line 558:
`" ".join(segment.text.strip() for segment in segments)`. -/
def transcript_text (segments : List String) : String :=
  pyJoin " " (segments.map pyStrip)

/-- Spec-worded restatement of the result-text contract, for the refinement
theorem of claim C6: the segments individually trimmed and joined with single
spaces in emission order, the empty sequence yielding the empty string. -/
def transcript_text_spec : List String → String
  | [] => ""
  | [s] => pyStrip s
  | s :: t :: ts => pyStrip s ++ " " ++ transcript_text_spec (t :: ts)

/-- Configuration globals of src/dictate.py that the orchestrator reads
(LANGUAGE, ALLOWED_LANGUAGES, AUTO_TYPE, NOTIFICATIONS, IS_WAYLAND,
AUDIO_DEVICE, HOTKEY_NAME, PASTE_YDOTOOL_ARGS), gathered into one record. -/
structure Config where
  language : Option String
  allowed_languages : Option (List String)
  auto_type : Bool
  notifications : Bool
  is_wayland : Bool
  audio_device : String
  hotkey_name : String
  paste_ydotool_args : List String
deriving DecidableEq, Repr

/-- Mutable fields of the Dictation instance that the session logic reads and
writes (lines 302-307).  model_error holds the latched value the caller
observes at the moment it reads self.model_error; it is written once by the
loader and never cleared. -/
structure DictationState where
  recording : Bool
  record_process : Option Nat
  temp_file : Option String
  model_error : Option String
deriving DecidableEq, Repr

/-- Reified side effects of the orchestrator, in program order.  notifyCall is
the body of Dictation.notify once the NOTIFICATIONS gate passed; updateTray is
Dictation._update_tray; detectLanguage and transcribeAudio are the two
model.transcribe invocations (beam 1 detection pass and beam 5 real pass). -/
inductive Effect where
  | updateTray (state : String)
  | createTempFile (path : String)
  | spawnProcess (cmd : List String)
  | terminateProcess (pid : Nat)
  | notifyCall (title message icon : String) (timeout : Nat)
  | awaitModel
  | detectLanguage (path : String)
  | transcribeAudio (path : String) (language : Option String)
  | clipboardWrite (wayland : Bool) (text : String)
  | sleepSettle
  | ydotoolKey (args : List String)
  | xdotoolType (text : String)
  | deleteFile (path : String)
deriving DecidableEq, Repr

/-- Dictation.notify, lines 423-427: returns immediately when notifications
are disabled, otherwise invokes the notification backend. -/
def notify (cfg : Config) (title message icon : String) (timeout : Nat) : List Effect :=
  if cfg.notifications then [Effect.notifyCall title message icon timeout] else []

/-- The arecord command line built in Dictation.start_recording,
lines 481-490: an optional device flag, then the fixed
16 kHz / mono / 16-bit-LE WAV parameters and the temp-file path. -/
def arecord_cmd (audio_device path : String) : List String :=
  (if audio_device ≠ "default" then ["arecord", "-D", audio_device] else ["arecord"])
    ++ ["-f", "S16_LE", "-r", "16000", "-c", "1", "-t", "wav", path]

/-- Environment inputs of one start_recording call: the temp-file name the
tempfile module allocates, and the outcome of the subprocess.Popen call
(pid on success, raised exception on failure). -/
structure StartEnv where
  temp_name : String
  spawn_result : Except PyExc Nat
deriving Repr

/-- Dictation.start_recording, lines 465-497.  Returns the updated state, the
effect trace, and the exception escaping the call, if any: the source has no
handler around subprocess.Popen, so a spawn failure propagates after the
recording flag was already set and the temp file created. -/
def start_recording (st : DictationState) (cfg : Config) (env : StartEnv) :
    DictationState × List Effect × Option PyExc :=
  if st.recording then (st, [], none)
  else if st.model_error.isSome then (st, [], none)
  else
    let st1 : DictationState := { st with recording := true, temp_file := some env.temp_name }
    let effs1 : List Effect := [Effect.updateTray "recording", Effect.createTempFile env.temp_name]
    match env.spawn_result with
    | Except.error e => (st1, effs1, some e)
    | Except.ok pid =>
      ({ st1 with record_process := some pid },
       effs1 ++ [Effect.spawnProcess (arecord_cmd cfg.audio_device env.temp_name)]
         ++ notify cfg "Recording..." ("Release " ++ cfg.hotkey_name ++ " when done")
              "audio-input-microphone" 30000,
       none)

/-- Environment inputs of one stop_recording call: the language reported by
the detection pass (consulted only in restricted-auto mode), the outcome of
the transcription try-block (segment texts, or the message of the exception
it raised), whether os.path.exists finds the temp file in the finally block,
and the window class focused at delivery time (recorded here to express that
the source never consults it). -/
structure StopEnv where
  detected : String
  result : Except String (List String)
  temp_exists : Bool
  window_class : Option String
deriving Repr

/-- Delivery branch of Dictation.stop_recording, lines 562-588: for non-empty
text, clipboard write, then (when auto-type is on) the settle delay and either
the ydotool chord with the user-configured PASTE_YDOTOOL_ARGS (Wayland) or
xdotool literal typing (X11), then the "Copied!" notification; for empty text
only the "No speech detected" notification. -/
def delivery_effects (cfg : Config) (text : String) : List Effect :=
  if text ≠ "" then
    [Effect.clipboardWrite cfg.is_wayland text]
      ++ (if cfg.auto_type then
            [Effect.sleepSettle]
              ++ (if cfg.is_wayland then [Effect.ydotoolKey cfg.paste_ydotool_args]
                  else [Effect.xdotoolType text])
          else [])
      ++ notify cfg "Copied!"
           (pyTake text 100 ++ (if pyLen text > 100 then "..." else ""))
           "emblem-ok-symbolic" 3000
  else
    notify cfg "No speech detected" "Try speaking louder" "dialog-warning" 2000

/-- Try-block of Dictation.stop_recording, lines 527-592: optional detection
pass (restricted-auto mode only), the real transcription pass with the
resolved language, then either delivery of the assembled text or the error
notification when the block raised. -/
def try_effects (cfg : Config) (env : StopEnv) (path : String) : List Effect :=
  let use_language := resolve_use_language cfg.language cfg.allowed_languages env.detected
  let detect_effs : List Effect :=
    match cfg.allowed_languages with
    | some (_ :: _) =>
      if cfg.language = none ∨ cfg.language = some "" then [Effect.detectLanguage path] else []
    | _ => []
  detect_effs ++ [Effect.transcribeAudio path use_language]
    ++ match env.result with
       | Except.error e => notify cfg "Error" (pyTake e 50) "dialog-error" 3000
       | Except.ok segments => delivery_effects cfg (transcript_text segments)

/-- Finally-block cleanup of Dictation.stop_recording, lines 593-597:
`if self.temp_file and os.path.exists(self.temp_file.name): os.unlink(...)`. -/
def cleanup_effects (temp_file : Option String) (temp_exists : Bool) : List Effect :=
  match temp_file with
  | some p => if temp_exists then [Effect.deleteFile p] else []
  | none => []

/-- Dictation.stop_recording, lines 499-598.  Note the early return at
lines 521-524: when the model gate settled in its error state, the method
returns after the error notification, before the try/finally, so neither the
temp-file cleanup nor the tray reset runs on that path. -/
def stop_recording (st : DictationState) (cfg : Config) (env : StopEnv) :
    DictationState × List Effect :=
  if !st.recording then (st, [])
  else
    let st1 : DictationState := { st with recording := false }
    let p2 : DictationState × List Effect :=
      match st1.record_process with
      | some pid => ({ st1 with record_process := none }, [Effect.terminateProcess pid])
      | none => (st1, [])
    let st2 := p2.1
    let pre := p2.2 ++ [Effect.updateTray "processing", Effect.awaitModel]
    match st2.model_error with
    | some _ => (st2, pre ++ notify cfg "Error" "Model failed to load" "dialog-error" 3000)
    | none =>
      let path := st2.temp_file.getD ""
      (st2, pre ++ try_effects cfg env path
            ++ cleanup_effects st2.temp_file env.temp_exists
            ++ [Effect.updateTray "ready"])

/-- Hotkey edges delivered by the evdev event loop (run, lines 636-642). -/
inductive KeyEvent where
  | press
  | release
deriving DecidableEq, Repr

/-- Dispatch of one hotkey edge inside Dictation.run, lines 636-642: press
calls start_recording, release calls stop_recording (which catches its own
transcription exceptions and so returns normally). -/
def handle_key_event (st : DictationState) (cfg : Config) (senv : StartEnv)
    (tenv : StopEnv) (ev : KeyEvent) : DictationState × List Effect × Option PyExc :=
  match ev with
  | KeyEvent.press => start_recording st cfg senv
  | KeyEvent.release =>
    let r := stop_recording st cfg tenv
    (r.1, r.2, none)

/-- One iteration of the device-read loop in Dictation.run, lines 634-644:
the only handler around the dispatch is `except BlockingIOError: pass`, so
any other exception keeps propagating out of run and terminates the
process. -/
def run_process_event (st : DictationState) (cfg : Config) (senv : StartEnv)
    (tenv : StopEnv) (ev : KeyEvent) : DictationState × List Effect × Option PyExc :=
  let r := handle_key_event st cfg senv tenv ev
  match r.2.2 with
  | some e => if e.name = "BlockingIOError" then (r.1, r.2.1, none) else (r.1, r.2.1, some e)
  | none => (r.1, r.2.1, none)

/-- Effect classifier: the observable delivery side effects of the Output
Router (clipboard write, chorded paste injection, literal typing). -/
def is_delivery_effect : Effect → Bool
  | Effect.clipboardWrite _ _ => true
  | Effect.ydotoolKey _ => true
  | Effect.xdotoolType _ => true
  | _ => false

/-- Effect classifier: temp-file deletion. -/
def is_delete_effect : Effect → Bool
  | Effect.deleteFile _ => true
  | _ => false

/-- Sample configuration: the documented defaults of load_config with
paste_keys "ctrl+v", on a Wayland session. -/
def cfgDefault : Config :=
  { language := none, allowed_languages := none, auto_type := true,
    notifications := true, is_wayland := true, audio_device := "default",
    hotkey_name := "F12", paste_ydotool_args := parse_paste_keys "ctrl+v" }

/-- Sample configuration with the restricted-auto language policy
`language = en,it`. -/
def cfgRestricted : Config :=
  { language := none, allowed_languages := some ["en", "it"], auto_type := true,
    notifications := true, is_wayland := true, audio_device := "default",
    hotkey_name := "F12", paste_ydotool_args := parse_paste_keys "ctrl+v" }

/-- Sample state of a session in mid-recording. -/
def recState : DictationState :=
  { recording := true, record_process := some 1234,
    temp_file := some "/tmp/rec.wav", model_error := none }

/-- Sample idle state with the model loaded. -/
def idleState : DictationState :=
  { recording := false, record_process := none, temp_file := none,
    model_error := none }

/-- Sample idle state after the model gate latched an error. -/
def errIdleState : DictationState :=
  { recording := false, record_process := none, temp_file := none,
    model_error := some "load failed" }

/-- Sample mid-recording state whose model gate latched an error while the
capture was running. -/
def modelErrState : DictationState :=
  { recording := true, record_process := some 7,
    temp_file := some "/tmp/rec.wav", model_error := some "cudnn missing" }

/-- Sample start environment whose arecord spawn succeeds. -/
def startEnvOk : StartEnv :=
  { temp_name := "/tmp/rec.wav", spawn_result := Except.ok 999 }

/-- Sample start environment whose subprocess.Popen call raises. -/
def startEnvSpawnFail : StartEnv :=
  { temp_name := "/tmp/rec.wav", spawn_result := Except.error ⟨"FileNotFoundError"⟩ }

/-- Second sample start environment whose subprocess.Popen call raises. -/
def startEnvSpawnDenied : StartEnv :=
  { temp_name := "/tmp/rec2.wav", spawn_result := Except.error ⟨"PermissionError"⟩ }

/-- Sample stop environment: a silent recording, so the model emits no
segments. -/
def stopEnvSilence : StopEnv :=
  { detected := "en", result := Except.ok [], temp_exists := true,
    window_class := none }

/-- Sample stop environment: non-empty speech with a terminal-emulator window
focused at delivery time. -/
def stopEnvTerminalFocus : StopEnv :=
  { detected := "en", result := Except.ok [" Hello world. "], temp_exists := true,
    window_class := some "alacritty" }

/-- Sample stop environment: non-empty speech, no focused-window answer. -/
def stopEnvPlain : StopEnv :=
  { detected := "en", result := Except.ok ["hello"], temp_exists := true,
    window_class := none }

/-- Sample stop environment whose detection pass reports French. -/
def stopEnvFrench : StopEnv :=
  { detected := "fr", result := Except.ok [" Bonjour "], temp_exists := true,
    window_class := none }

/-- Folding an append-singleton step over a list extends the accumulator with
the mapped list. -/
lemma foldl_append_singleton {α β : Type} (f : α → β) :
    ∀ (l : List α) (init : List β),
      List.foldl (fun acc x => acc ++ [f x]) init l = init ++ l.map f := by
  intro l
  induction l with
  | nil => intro init; simp
  | cons x xs ih => intro init; simp [ih]

/-- Closed form of build_ydotool_args: presses in order, then releases in
reverse order. -/
lemma build_ydotool_args_eq (ks : List Nat) :
    build_ydotool_args ks
      = ks.map (fun kc => toString kc ++ ":1")
        ++ ks.reverse.map (fun kc => toString kc ++ ":0") := by
  simp only [build_ydotool_args]
  rw [foldl_append_singleton, foldl_append_singleton, List.nil_append]

/-- Prepending to the accumulator of the join fold factors out on the left. -/
lemma foldl_join_factor :
    ∀ (l : List String) (p q : String),
      List.foldl (fun acc x => acc ++ " " ++ x) (p ++ q) l
        = p ++ List.foldl (fun acc x => acc ++ " " ++ x) q l := by
  intro l
  induction l with
  | nil => intro p q; rfl
  | cons x xs ih =>
    intro p q
    show List.foldl _ (p ++ q ++ " " ++ x) xs = p ++ List.foldl _ (q ++ " " ++ x) xs
    rw [String.append_assoc, String.append_assoc, ← String.append_assoc q,
      ih p (q ++ " " ++ x), String.append_assoc]

/-- Unfolding step for pyJoin on a two-or-more-element list. -/
lemma pyJoin_cons_cons (a b : String) (l : List String) :
    pyJoin " " (a :: b :: l) = a ++ " " ++ pyJoin " " (b :: l) := by
  show List.foldl _ (a ++ " " ++ b) l = a ++ " " ++ List.foldl _ b l
  rw [String.append_assoc, foldl_join_factor l a (" " ++ b),
    foldl_join_factor l " " b, String.append_assoc]

/-- The b/s swap relation on paste-key tokens used by claim C10. -/
def b_s_swap (x y : String) : Prop :=
  x = y ∨ (x = "b" ∧ y = "s") ∨ (x = "s" ∧ y = "b")

/-- Swapping the tokens "b" and "s" does not change a PASTE_KEYCODE_MAP
lookup, since both entries carry keycode 31. -/
lemma paste_keycode_map_b_s_swap {x y : String} (h : b_s_swap x y) :
    PASTE_KEYCODE_MAP x = PASTE_KEYCODE_MAP y := by
  rcases h with h | ⟨hx, hy⟩ | ⟨hx, hy⟩
  · rw [h]
  · rw [hx, hy]; decide
  · rw [hx, hy]; decide

/-- filterMap sends pointwise-related lists with lookup-invariant relations to
equal results. -/
lemma filterMap_congr_forall₂ {α β : Type} {R : α → α → Prop} {f : α → Option β}
    (hf : ∀ a b, R a b → f a = f b) :
    ∀ {l1 l2 : List α}, List.Forall₂ R l1 l2 → l1.filterMap f = l2.filterMap f := by
  intro l1 l2 h
  induction h with
  | nil => rfl
  | cons hab _ ih => simp only [List.filterMap_cons, hf _ _ hab, ih]

/-- Claim C6: the result text is the space-joined concatenation of the
individually trimmed segment texts, in emission order, and the empty segment
sequence yields the empty string.  The source expression
`" ".join(segment.text.strip() for segment in segments)` (transcript_text) is
proved equal to the spec-worded recursive description
(transcript_text_spec). -/
theorem c6_transcript_text_join :
    (∀ segments : List String, transcript_text segments = transcript_text_spec segments)
      ∧ transcript_text [] = "" := by
  constructor
  · intro segments
    induction segments with
    | nil => rfl
    | cons s rest ih =>
      cases rest with
      | nil => rfl
      | cons t ts =>
        have hstep : transcript_text (s :: t :: ts)
            = pyStrip s ++ " " ++ transcript_text (t :: ts) := by
          simp only [transcript_text, List.map]
          exact pyJoin_cons_cons (pyStrip s) (pyStrip t) (ts.map pyStrip)
        rw [hstep, ih]
        rfl
  · rfl

/-- Claim C7: a hotkey press while already recording and a hotkey release
while idle are both no-ops: the Dictation state is returned unchanged, the
effect trace is empty (no subprocess, temp file, or notification activity),
and no exception escapes. -/
theorem c7_duplicate_edges_noop (st : DictationState) (cfg : Config)
    (senv : StartEnv) (tenv : StopEnv) :
    (st.recording = true → start_recording st cfg senv = (st, [], none))
      ∧ (st.recording = false → stop_recording st cfg tenv = (st, [])) := by
  constructor
  · intro h; simp [start_recording, h]
  · intro h; simp [stop_recording, h]

/-- Witness for claim C7 at concrete states. -/
theorem c7_duplicate_edges_noop_witness :
    start_recording recState cfgDefault startEnvOk = (recState, [], none)
      ∧ stop_recording idleState cfgDefault stopEnvSilence = (idleState, []) :=
  ⟨(c7_duplicate_edges_noop recState cfgDefault startEnvOk stopEnvSilence).1 rfl,
   (c7_duplicate_edges_noop idleState cfgDefault startEnvOk stopEnvSilence).2 rfl⟩

/-- Claim C8: a hotkey press arriving while idle with the model gate latched
in its error state is ignored entirely: the state is unchanged (so the
Recording state is never entered) and the effect trace is empty (no capture
subprocess, no temp file, no tray or notification activity). -/
theorem c8_model_error_press_ignored (st : DictationState) (cfg : Config)
    (senv : StartEnv) (e : String)
    (hrec : st.recording = false) (herr : st.model_error = some e) :
    start_recording st cfg senv = (st, [], none) := by
  simp [start_recording, hrec, herr]

/-- Witness for claim C8 at a concrete error-latched idle state. -/
theorem c8_model_error_press_ignored_witness :
    start_recording errIdleState cfgDefault startEnvOk = (errIdleState, [], none) :=
  c8_model_error_press_ignored errIdleState cfgDefault startEnvOk "load failed" rfl rfl

/-- Claim C9: whenever the configured paste-key string resolves to the
non-empty keycode list k1..kn, parse_paste_keys produces exactly the press
arguments k1..kn in configuration order followed by the release arguments in
reverse order, of total length 2n. -/
theorem c9_paste_sequence_shape (s : String) (ks : List Nat)
    (h : resolve_keycodes s = ks) (hne : ks ≠ []) :
    parse_paste_keys s
        = ks.map (fun kc => toString kc ++ ":1")
          ++ ks.reverse.map (fun kc => toString kc ++ ":0")
      ∧ (parse_paste_keys s).length = 2 * ks.length := by
  have hp : parse_paste_keys s
      = ks.map (fun kc => toString kc ++ ":1")
        ++ ks.reverse.map (fun kc => toString kc ++ ":0") := by
    rw [parse_paste_keys, h, build_ydotool_args_eq]
  refine ⟨hp, ?_⟩
  rw [hp]
  simp [List.length_append, List.length_map, List.length_reverse]
  omega

/-- Witness for claim C9 at the default configuration string "ctrl+v". -/
theorem c9_paste_sequence_shape_witness :
    parse_paste_keys "ctrl+v"
        = ([29, 47] : List Nat).map (fun kc => toString kc ++ ":1")
          ++ ([29, 47] : List Nat).reverse.map (fun kc => toString kc ++ ":0")
      ∧ (parse_paste_keys "ctrl+v").length = 2 * ([29, 47] : List Nat).length :=
  c9_paste_sequence_shape "ctrl+v" [29, 47] (by decide) (by decide)

/-- Claim C10: two paste-key configuration strings whose token lists differ
only by swapping the key names "b" and "s" parse to identical injection
sequences, because PASTE_KEYCODE_MAP assigns keycode 31 to both names. -/
theorem c10_b_s_keycode_collision (s1 s2 : String)
    (h : List.Forall₂ b_s_swap (paste_key_tokens s1) (paste_key_tokens s2)) :
    parse_paste_keys s1 = parse_paste_keys s2
      ∧ PASTE_KEYCODE_MAP "b" = some 31 ∧ PASTE_KEYCODE_MAP "s" = some 31 := by
  refine ⟨?_, by decide, by decide⟩
  have hfm : (paste_key_tokens s1).filterMap PASTE_KEYCODE_MAP
      = (paste_key_tokens s2).filterMap PASTE_KEYCODE_MAP :=
    filterMap_congr_forall₂ (fun a b hab => paste_keycode_map_b_s_swap hab) h
  simp [parse_paste_keys, resolve_keycodes, hfm]

/-- Witness for claim C10 at the pair "ctrl+b" / "ctrl+s". -/
theorem c10_b_s_keycode_collision_witness :
    parse_paste_keys "ctrl+b" = parse_paste_keys "ctrl+s"
      ∧ parse_paste_keys "ctrl+b" = ["29:1", "31:1", "31:0", "29:0"] := by
  have h1 : paste_key_tokens "ctrl+b" = ["ctrl", "b"] := by decide
  have h2 : paste_key_tokens "ctrl+s" = ["ctrl", "s"] := by decide
  have hf : List.Forall₂ b_s_swap (paste_key_tokens "ctrl+b") (paste_key_tokens "ctrl+s") := by
    rw [h1, h2]
    exact List.Forall₂.cons (Or.inl rfl)
      (List.Forall₂.cons (Or.inr (Or.inl ⟨rfl, rfl⟩)) List.Forall₂.nil)
  exact ⟨(c10_b_s_keycode_collision "ctrl+b" "ctrl+s" hf).1, by decide⟩

/-- Claim C1 (code bug): with auto-type enabled on Wayland, non-empty text,
and the terminal emulator "alacritty" focused at delivery time, the selection
function get_paste_keys_for_window does resolve to the terminal sequence
Ctrl+Shift+V, but Dictation.stop_recording never calls it: the injected
chord is the user-configured default PASTE_YDOTOOL_ARGS (here ctrl+v), which
differs from the terminal sequence.  The terminal-aware machinery
(TERMINAL_APPS, get_active_window_class, get_paste_keys_for_window, the
target_window_class field) is dead code on the delivery path. -/
theorem c1_terminal_paste_selection_unused :
    get_paste_keys_for_window (parse_paste_keys "ctrl+v") (some "alacritty")
        = PASTE_TERMINAL_ARGS
      ∧ stopEnvTerminalFocus.window_class = some "alacritty"
      ∧ Effect.ydotoolKey cfgDefault.paste_ydotool_args
          ∈ (stop_recording recState cfgDefault stopEnvTerminalFocus).2
      ∧ Effect.ydotoolKey PASTE_TERMINAL_ARGS
          ∉ (stop_recording recState cfgDefault stopEnvTerminalFocus).2
      ∧ cfgDefault.paste_ydotool_args ≠ PASTE_TERMINAL_ARGS := by
  decide

/-- Claim C2 (code bug): when the model gate latched an error while the
capture ran, Dictation.stop_recording returns at the early model-error exit
(lines 521-524) before the try/finally, so the existing temp file is never
deleted on that path, while the very same session inputs with a loaded model
do delete it in the finally block. -/
theorem c2_temp_file_leak_on_model_error :
    modelErrState.temp_file = some "/tmp/rec.wav"
      ∧ stopEnvPlain.temp_exists = true
      ∧ (stop_recording modelErrState cfgDefault stopEnvPlain).2.filter is_delete_effect = []
      ∧ Effect.notifyCall "Error" "Model failed to load" "dialog-error" 3000
          ∈ (stop_recording modelErrState cfgDefault stopEnvPlain).2
      ∧ (stop_recording recState cfgDefault stopEnvPlain).2.filter is_delete_effect
          = [Effect.deleteFile "/tmp/rec.wav"] := by
  decide

/-- Counterexample for claim C3: at a concrete idle state with a loaded
model, a press whose arecord spawn raises FileNotFoundError leaves the event
loop iteration with the recording flag still set and the exception escaping
(only BlockingIOError is caught in Dictation.run), contradicting the claimed
session-local abort that returns to Idle without crashing. -/
theorem c3_spawn_failure_counterexample :
    (run_process_event idleState cfgDefault startEnvSpawnFail stopEnvSilence
        KeyEvent.press).1.recording = true
      ∧ (run_process_event idleState cfgDefault startEnvSpawnFail stopEnvSilence
          KeyEvent.press).2.2 = some { name := "FileNotFoundError" } := by
  decide

/-- Amended claim C3: if spawning the audio-capture subprocess raises during
start_recording, the exception propagates uncaught out of the event-loop
iteration (the loop catches only BlockingIOError), so the orchestrator
process terminates; the recording flag remains set and the freshly created
temp file is recorded in the state, rather than the session aborting
session-locally back to Idle. -/
theorem c3_spawn_failure_propagates (st : DictationState) (cfg : Config)
    (senv : StartEnv) (tenv : StopEnv) (e : PyExc)
    (hrec : st.recording = false) (herr : st.model_error = none)
    (hsp : senv.spawn_result = Except.error e)
    (hbio : e.name ≠ "BlockingIOError") :
    (run_process_event st cfg senv tenv KeyEvent.press).2.2 = some e
      ∧ (run_process_event st cfg senv tenv KeyEvent.press).1.recording = true
      ∧ (run_process_event st cfg senv tenv KeyEvent.press).1.temp_file
          = some senv.temp_name := by
  simp [run_process_event, handle_key_event, start_recording, hrec, herr, hsp, hbio]

/-- Witness for the amended claim C3 at a concrete PermissionError spawn
failure. -/
theorem c3_spawn_failure_propagates_witness :
    (run_process_event idleState cfgDefault startEnvSpawnDenied stopEnvSilence
        KeyEvent.press).2.2 = some { name := "PermissionError" }
      ∧ (run_process_event idleState cfgDefault startEnvSpawnDenied stopEnvSilence
          KeyEvent.press).1.recording = true
      ∧ (run_process_event idleState cfgDefault startEnvSpawnDenied stopEnvSilence
          KeyEvent.press).1.temp_file = some startEnvSpawnDenied.temp_name :=
  c3_spawn_failure_propagates idleState cfgDefault startEnvSpawnDenied stopEnvSilence
    { name := "PermissionError" } rfl rfl rfl (by decide)

/-- Claim C4: under the restricted-auto language policy (an allowed list
parsed from the configuration and no forced language), the real transcription
pass uses the detected language when it is allowed and the first allowed
entry otherwise; the resolved language is both computed by
resolve_use_language and passed to the real-pass transcribe call emitted by
stop_recording. -/
theorem c4_restricted_auto_language (cfgStr : String) (a : String)
    (rest : List String) (st : DictationState) (cfg : Config) (env : StopEnv)
    (hparse : parse_language_config cfgStr = (none, some (a :: rest)))
    (hlang : cfg.language = none)
    (hallow : cfg.allowed_languages = some (a :: rest))
    (hrec : st.recording = true) (herr : st.model_error = none) :
    resolve_use_language cfg.language cfg.allowed_languages env.detected
        = some (if env.detected ∈ a :: rest then env.detected else a)
      ∧ Effect.transcribeAudio (st.temp_file.getD "")
            (some (if env.detected ∈ a :: rest then env.detected else a))
          ∈ (stop_recording st cfg env).2 := by
  have hres : resolve_use_language cfg.language cfg.allowed_languages env.detected
      = some (if env.detected ∈ a :: rest then env.detected else a) := by
    rw [hlang, hallow]
    simp only [resolve_use_language]
    split_ifs with h1 h2 <;> simp_all
  refine ⟨hres, ?_⟩
  cases hrp : st.record_process <;>
    simp [stop_recording, try_effects, hrec, herr, hrp, hres, List.mem_append]

/-- Witness for claim C4: allowed list ["en","it"] parsed from "en,it" with
detected language "fr" resolves to "en" for the real pass. -/
theorem c4_restricted_auto_language_witness :
    resolve_use_language cfgRestricted.language cfgRestricted.allowed_languages
        stopEnvFrench.detected
        = some (if stopEnvFrench.detected ∈ ("en" : String) :: ["it"]
                then stopEnvFrench.detected else "en")
      ∧ Effect.transcribeAudio (recState.temp_file.getD "")
            (some (if stopEnvFrench.detected ∈ ("en" : String) :: ["it"]
                   then stopEnvFrench.detected else "en"))
          ∈ (stop_recording recState cfgRestricted stopEnvFrench).2 :=
  c4_restricted_auto_language "en,it" "en" ["it"] recState cfgRestricted stopEnvFrench
    (by decide) rfl rfl rfl rfl

/-- Claim C5: a session whose transcription result is the empty string
performs no clipboard write and no keystroke injection (the filter over the
delivery-effect classifier is empty) and reports the "No speech detected"
status instead. -/
theorem c5_empty_text_no_delivery (st : DictationState) (cfg : Config)
    (env : StopEnv) (segs : List String)
    (hrec : st.recording = true) (herr : st.model_error = none)
    (hres : env.result = Except.ok segs)
    (hempty : transcript_text segs = "")
    (hnot : cfg.notifications = true) :
    (stop_recording st cfg env).2.filter is_delivery_effect = []
      ∧ Effect.notifyCall "No speech detected" "Try speaking louder" "dialog-warning" 2000
          ∈ (stop_recording st cfg env).2 := by
  have hde : delivery_effects cfg (transcript_text segs)
      = [Effect.notifyCall "No speech detected" "Try speaking louder" "dialog-warning" 2000] := by
    rw [hempty]
    simp [delivery_effects, notify, hnot]
  constructor
  · cases hrp : st.record_process <;>
      cases htf : st.temp_file <;>
      rcases hal : cfg.allowed_languages with _ | ⟨_ | ⟨a, l⟩⟩ <;>
      simp [stop_recording, try_effects, cleanup_effects, notify, hrec, herr, hres,
        hde, hrp, htf, hal, List.filter_append, is_delivery_effect]
  · cases hrp : st.record_process <;>
      simp [stop_recording, try_effects, hrec, herr, hres, hde, hrp, List.mem_append]

/-- Witness for claim C5 at a concrete silent session (empty segment
sequence). -/
theorem c5_empty_text_no_delivery_witness :
    (stop_recording recState cfgDefault stopEnvSilence).2.filter is_delivery_effect = []
      ∧ Effect.notifyCall "No speech detected" "Try speaking louder" "dialog-warning" 2000
          ∈ (stop_recording recState cfgDefault stopEnvSilence).2 :=
  c5_empty_text_no_delivery recState cfgDefault stopEnvSilence [] rfl rfl rfl rfl rfl

end SoupaWhisper
